import Mathlib

/-!
Verification of the `sddsdata` Python C extension module
(`sdds/sddsdatamodule.c` in the SDDS-Python-module repository).

The module wraps the external SDDS storage-engine library behind a
fixed-capacity table of dataset handles, `SDDS_DATASET dataset_f[20]`.
Each wrapper parses its Python arguments, indexes `dataset_f` with the
caller-supplied `fileIndex`, marshals dynamic Python values to and from
the ten native SDDS scalar types, and forwards to the engine.

This file gives a shallow embedding of the wrapper-level logic:
the handle-table access discipline, the float32 marshalling pipelines,
the fixed-value dispatch of `sddsdata_DefineParameter`, the
`sddsdata_SetRowValues` loop, the read-page return-value encoding, the
empty-string attribute normalization, the append-to-page result, the
`sddsdata_SetArray` dimension check, the char-type first-byte stores and
the positional-index validation of the get/set accessors.  The external
engine (the SDDS library proper, not part of this repository) appears
only as abstract inputs, or as definitions explicitly modelled from the
specification where a claim depends on its documented behaviour.
-/

/- ### Handle table (`SDDS_DATASET dataset_f[20]`, line 35) -/

/-- Lifecycle state of one slot of the module-level handle table
`dataset_f`.  A slot of the static C array starts zero-initialized
(`unopened`), becomes `opened` by one of the initialization wrappers,
and is zeroed again by `SDDS_Terminate` (`terminated`). -/
inductive SessionState where
  | unopened
  | opened
  | terminated
deriving DecidableEq, Repr

/-- The handle table: the static array `SDDS_DATASET dataset_f[20]`
(sddsdatamodule.c line 35), one session state per slot. -/
structure HandleTable where
  slots : Fin 20 → SessionState

/-- Outcome of one wrapper call, viewed through its handle-table access:
a clean sentinel error return, a successful result, or a dereference of
memory outside the table (the C behaviour of `dataset_f[fileIndex]` for
an out-of-range index). -/
inductive AccessResult where
  | sentinel
  | ok
  | invalidDeref (i : Int)
deriving DecidableEq, Repr

/-- Modelled from the spec: the missing storage-engine code
(the SDDS library is not part of this repository).  Per spec section 7,
an operation on an unopened or terminated session fails with the
unknown-handle sentinel; only an opened session can succeed. -/
def engineOp (s : SessionState) : AccessResult :=
  match s with
  | .opened => .ok
  | .unopened => .sentinel
  | .terminated => .sentinel

/-- Handle access of a typical wrapper, e.g. `sddsdata_ReadPage`
(line 1102) or `sddsdata_InitializeInput` (line 56): the C code contains
no bounds check and forms `&dataset_f[fileIndex]` unconditionally.
The conditional below is the semantics of C array indexing itself, not a
check present in the code: an in-range index reads the slot, an
out-of-range index dereferences invalid memory. -/
def wrapperOp (t : HandleTable) (fileIndex : Int) : AccessResult :=
  if h : 0 ≤ fileIndex ∧ fileIndex < 20 then
    engineOp (t.slots ⟨fileIndex.toNat, by omega⟩)
  else
    .invalidDeref fileIndex

/-- Handle access of `sddsdata_Terminate` (lines 256-263):
`SDDS_Terminate(&dataset_f[fileIndex])` with no bounds check.
Modelled from the spec for the engine part: terminate releases the
session, after which operations on the index fail until reacquired. -/
def terminateWrapper (t : HandleTable) (fileIndex : Int) : HandleTable × AccessResult :=
  if h : 0 ≤ fileIndex ∧ fileIndex < 20 then
    (⟨Function.update t.slots ⟨fileIndex.toNat, by omega⟩ .terminated⟩, .ok)
  else
    (t, .invalidDeref fileIndex)

/-- The handle table at process start: the static array is
zero-initialized, every slot unopened. -/
def emptyTable : HandleTable :=
  ⟨fun _ => .unopened⟩

/- ### Float32 marshalling pipelines (C2) -/

/-- One transformation applied by a wrapper to a floating value on its
way between the Python boundary and the native buffer. -/
inductive MarshalStep where
  | castToFloat32
  | textRoundTrip6
deriving DecidableEq, Repr

/-- Steps `sddsdata_SetColumn` applies to each cell of an `SDDS_FLOAT`
column (lines 2947-2950): `((float*)data)[i] = (float)PyFloat_AsDouble(...)`,
a plain narrowing cast, with no textual round-trip. -/
def setColumn_float32_steps : List MarshalStep := [.castToFloat32]

/-- Steps `sddsdata_SetArray` applies to each element of an `SDDS_FLOAT`
array (lines 2777-2780): the same plain narrowing cast. -/
def setArray_float32_steps : List MarshalStep := [.castToFloat32]

/-- Steps `sddsdata_SetParameter` applies to an `SDDS_FLOAT` parameter
(lines 2631-2633): `PyFloat_AsDouble(v)` is passed to
`SDDS_SetParameters` through varargs as a double; the wrapper applies
neither a cast to float nor a textual round-trip. -/
def setParameter_float32_steps : List MarshalStep := []

/-- Steps `sddsdata_GetColumn` applies to each cell of an `SDDS_FLOAT`
column (lines 3200-3204): `sprintf(buffer, "%.6E", v); atof(buffer)`,
the 6-significant-digit textual round-trip. -/
def getColumn_float32_steps : List MarshalStep := [.textRoundTrip6]

/-- Steps `sddsdata_GetArray` applies to each element of an `SDDS_FLOAT`
array (lines 3337-3341): the same textual round-trip. -/
def getArray_float32_steps : List MarshalStep := [.textRoundTrip6]

/-- Steps `sddsdata_GetParameter` applies to an `SDDS_FLOAT` parameter
(lines 3519-3522): the same textual round-trip. -/
def getParameter_float32_steps : List MarshalStep := [.textRoundTrip6]

/- ### Fixed-value dispatch of `sddsdata_DefineParameter` (C3) -/

/-- Shape of the dynamic `fixed_value` argument of
`sddsdata_DefineParameter`, as discriminated by the code
(lines 332-371): `PyString_Check`, then `PyNumber_Check` with
`PyLong_Check` / `PyInt_Check` / `PyFloat_Check`, else neither. -/
inductive PyFixed where
  | pyStr (s : String)
  | pyLongNum (n : Int)
  | pyFloatNum
  | pyOtherNum
  | pyNonNum
deriving DecidableEq, Repr

/-- The definition call `sddsdata_DefineParameter` issues for a given
fixed value.  `withFixedString none` is `SDDS_DefineParameter(..., NULL)`
reached through the string branch; `noFixedValue` is the distinct call
`SDDS_DefineParameter1(..., NULL)` on the fall-through branch.
`typeMismatchError` is the outcome the specification asserts for values
that are neither text nor numbers; the code has no such path, and the
constructor exists only to state that assertion. -/
inductive DefineRoute where
  | withFixedString (s : Option String)
  | withFormattedInt32
  | withFormattedFloat64
  | noFixedValue
  | typeMismatchError
deriving DecidableEq, Repr

/-- Dispatch of `sddsdata_DefineParameter` on its `fixed_value` argument
(lines 332-371): a string is used verbatim (empty becomes NULL); a
number passing `PyLong_Check`/`PyInt_Check` is rendered through
`SDDS_SprintTypedValue(..., SDDS_LONG, ...)`; one passing
`PyFloat_Check` through `SDDS_SprintTypedValue(..., SDDS_DOUBLE, ...)`;
every other value falls through to `SDDS_DefineParameter1(..., NULL)`. -/
def defineParameterRoute (v : PyFixed) : DefineRoute :=
  match v with
  | .pyStr s => .withFixedString (if s.length = 0 then none else some s)
  | .pyLongNum _ => .withFormattedInt32
  | .pyFloatNum => .withFormattedFloat64
  | .pyOtherNum => .noFixedValue
  | .pyNonNum => .noFixedValue

/- ### `sddsdata_SetRowValues` (C4, lines 3019-3092) -/

/-- Environment `sddsdata_SetRowValues` consults for each
(column-name, value) pair: `SDDS_GetColumnIndex` (yields -1 on a missing
name), `SDDS_GetColumnType` (yields 0 for an invalid index), and the
engine call `SDDS_SetRowValues` (yields 0 on conversion failure). -/
structure RowEnv (V : Type) where
  colIndex : String → Int
  colType : Int → Int
  setOk : Int → V → Bool

/-- A pair that passes both checks of the loop body: its column resolves
to a valid type and the engine accepts the value. -/
def pairOk {V : Type} (env : RowEnv V) (p : String × V) : Bool :=
  decide (env.colType (env.colIndex p.1) ≠ 0) && env.setOk (env.colIndex p.1) p.2

/-- The (column-index, value) cell mutation a successful pair produces. -/
def resolvePair {V : Type} (env : RowEnv V) (p : String × V) : Int × V :=
  (env.colIndex p.1, p.2)

/-- The loop of `sddsdata_SetRowValues` (lines 3032-3091).  `applied` is
the trace of cell mutations already performed.  For each pair the column
is looked up and its type fetched; type 0 (including lookup failure,
index -1) aborts with sentinel 0; an engine refusal aborts with
sentinel 0; otherwise the mutation is recorded and the loop continues.
An exhausted list returns 1. -/
def setRowValuesRun {V : Type} (env : RowEnv V) (applied : List (Int × V)) :
    List (String × V) → List (Int × V) × Int
  | [] => (applied, 1)
  | p :: rest =>
    if env.colType (env.colIndex p.1) = 0 then
      (applied, 0)
    else if env.setOk (env.colIndex p.1) p.2 then
      setRowValuesRun env (applied ++ [resolvePair env p]) rest
    else
      (applied, 0)

/- ### Read-page return encoding (C5) -/

/-- Outcome of reading one page, as the wrapper's own documentation
states it (`sddsdata_ReadPage`, lines 1092-1094: page number on success,
-1 on EOF, 0 on error). -/
inductive PageReadOutcome where
  | success (page : Int)
  | endOfFile
  | error
deriving DecidableEq, Repr

/-- A well-formed outcome: successful page numbers are 1-based. -/
def validOutcome : PageReadOutcome → Prop
  | .success p => 1 ≤ p
  | .endOfFile => True
  | .error => True

/-- Modelled from the spec and the wrapper's documentation: the long
returned by `SDDS_ReadPage` / `SDDS_ReadPageSparse` (the engine is not
part of this repository), which `sddsdata_ReadPage` (line 1102) and
`sddsdata_ReadPageSparse` (line 1126) forward unchanged to Python:
the 1-based page number on success, -1 on end of file, 0 on error. -/
def readPageReturn : PageReadOutcome → Int
  | .success p => p
  | .endOfFile => -1
  | .error => 0

/- ### Empty-attribute normalization (C6) -/

/-- The normalization every optional textual attribute receives, e.g.
lines 319-330: `if (symbol) if (strlen(symbol) == 0) symbol = NULL;`.
The argument arrives from `PyArg_ParseTuple` as a non-NULL C string, so
only the empty-string test is live. -/
def normalizeAttr (s : String) : Option String :=
  if s.length = 0 then none else some s

/-- Optional attributes of `SDDS_DefineParameter` / `SDDS_DefineColumn`
as the wrappers pass them on. -/
structure DefAttrs where
  symbol : Option String
  units : Option String
  description : Option String
  format_string : Option String
deriving DecidableEq, Repr

/-- Attribute normalization of `sddsdata_DefineParameter`
(lines 319-330). -/
def defineParameterAttrs (symbol units description format_string : String) : DefAttrs :=
  { symbol := normalizeAttr symbol
    units := normalizeAttr units
    description := normalizeAttr description
    format_string := normalizeAttr format_string }

/-- Attribute normalization of `sddsdata_DefineColumn`
(lines 457-468). -/
def defineColumnAttrs (symbol units description format_string : String) : DefAttrs :=
  { symbol := normalizeAttr symbol
    units := normalizeAttr units
    description := normalizeAttr description
    format_string := normalizeAttr format_string }

/-- Optional attributes of `SDDS_DefineArray` as the wrapper passes
them on. -/
structure ArrayDefAttrs where
  symbol : Option String
  units : Option String
  description : Option String
  format_string : Option String
  group_name : Option String
deriving DecidableEq, Repr

/-- Attribute normalization of `sddsdata_DefineArray`
(lines 408-422), including the array-specific group name. -/
def defineArrayAttrs (symbol units description format_string group_name : String) :
    ArrayDefAttrs :=
  { symbol := normalizeAttr symbol
    units := normalizeAttr units
    description := normalizeAttr description
    format_string := normalizeAttr format_string
    group_name := normalizeAttr group_name }

/-- Optional attributes of `SDDS_InitializeOutput` as
`sddsdata_InitializeOutput` passes them on (lines 136-141). -/
structure OutputAttrs where
  description : Option String
  contents : Option String
deriving DecidableEq, Repr

/-- Attribute normalization of `sddsdata_InitializeOutput`
(lines 136-141). -/
def outputAttrs (description contents : String) : OutputAttrs :=
  { description := normalizeAttr description
    contents := normalizeAttr contents }

/- ### Append-to-page result (C7, lines 94-107) -/

/-- Result of `sddsdata_InitializeAppendToPage`: the wrapper calls
`SDDS_InitializeAppendToPage(..., &rowsPresent)`; when the engine result
is not 1 it returns NULL (the module's error sentinel, an exception at
the Python boundary), otherwise it returns `rowsPresent` as a Python
integer.  `Except.error` is the NULL return, `Except.ok` the integer. -/
def initAppendToPageResult (result : Int) (rowsPresent : Int) : Except Unit Int :=
  if result ≠ 1 then .error () else .ok rowsPresent

/- ### `sddsdata_SetArray` dimension check (C8, lines 2698-2715) -/

/-- Tail of `sddsdata_SetArray` from the dimension check on
(lines 2701-2702): `if (dimensions != PyList_Size(dim)) return 0;`.
When the declared dimensionality differs from the length of the supplied
dimension list, the wrapper returns the sentinel 0 before converting any
data and before calling `SDDS_SetArray`; otherwise the conversion and
engine write proceed (abstracted as `engineWrite`). -/
def setArrayAfterLookup {DS : Type} (engineWrite : DS → DS × Int)
    (declaredDims : Int) (dimList : List Int) (ds : DS) : DS × Int :=
  if declaredDims ≠ (dimList.length : Int) then (ds, 0) else engineWrite ds

/- ### Char stores (C9) -/

/-- First byte of the NUL-terminated C string obtained from a Python
text via `PyString_AsString(v)[0]`; the empty text yields its
terminating NUL byte. -/
def cFirstByte (bytes : List Nat) : Nat :=
  bytes.headD 0

/-- Byte stored for an `SDDS_CHARACTER` parameter by
`sddsdata_SetParameter` (lines 2634-2635):
`(char)(PyString_AsString(v)[0])`. -/
def setParameterCharStored (bytes : List Nat) : Nat :=
  cFirstByte bytes

/-- Bytes stored for an `SDDS_CHARACTER` column by `sddsdata_SetColumn`
(lines 2957-2960): per cell, `(char)(PyString_AsString(...)[0])`. -/
def setColumnCharStored (cells : List (List Nat)) : List Nat :=
  cells.map cFirstByte

/-- Bytes stored for an `SDDS_CHARACTER` array by `sddsdata_SetArray`
(lines 2787-2790): per element, `(char)(PyString_AsString(...)[0])`. -/
def setArrayCharStored (cells : List (List Nat)) : List Nat :=
  cells.map cFirstByte

/- ### Positional-index validation (C10) -/

/-- Fate of a positional index inside an accessor: either it is rejected
with the error sentinel before any name is selected, or the name table
returned by the engine is indexed at `names[i]`. -/
inductive NameSel where
  | rejected
  | selected (i : Int)
deriving DecidableEq, Repr

/-- Index validation of `sddsdata_SetArray` (lines 2689-2694): after
fetching `number` array names, only `if (number <= index) return 0;` is
checked before `names[index]` is read. -/
def setArraySelect (index number : Int) : NameSel :=
  if number ≤ index then .rejected else .selected index

/-- Index validation of `sddsdata_GetColumn` (lines 3137-3141):
`if ((index >= 0) && (index < number))` selects `data[index]`, every
other index is rejected. -/
def getColumnSelect (index number : Int) : NameSel :=
  if 0 ≤ index ∧ index < number then .selected index else .rejected

/-- Index validation of `sddsdata_GetArray` (lines 3276-3280): the same
two-sided check as `sddsdata_GetColumn`. -/
def getArraySelect (index number : Int) : NameSel :=
  if 0 ≤ index ∧ index < number then .selected index else .rejected

/-- Index validation of `sddsdata_GetParameter` (lines 3474-3478): the
same two-sided check. -/
def getParameterSelect (index number : Int) : NameSel :=
  if 0 ≤ index ∧ index < number then .selected index else .rejected

/-! ## Theorems -/

/-- C1, as stated, is false: an operation given an index outside
[0, 20) does not fail with a sentinel — the wrapper has no bounds check,
so `dataset_f[25]` dereferences memory outside the handle table. -/
theorem c1_counterexample :
    wrapperOp emptyTable 25 = .invalidDeref 25 ∧
    AccessResult.invalidDeref 25 ≠ .sentinel := by
  decide

/-- C1 (amended): for an in-range index whose slot is unopened or
terminated, the operation fails cleanly with the sentinel (the engine's
unknown-handle behaviour); terminating an in-range index and then
issuing an operation against it also yields the sentinel; but the module
itself performs no index validation, so an index outside [0, 20) is used
to dereference memory outside the table instead of being rejected. -/
theorem c1_theorem (t : HandleTable) (j : Fin 20) (i : Int) :
    (t.slots j ≠ .opened → wrapperOp t (j : Int) = .sentinel) ∧
    wrapperOp (terminateWrapper t (j : Int)).1 (j : Int) = .sentinel ∧
    (¬(0 ≤ i ∧ i < 20) → wrapperOp t i = .invalidDeref i) := by
  have hj : 0 ≤ (j : Int) ∧ (j : Int) < 20 :=
    ⟨Int.natCast_nonneg _, by exact_mod_cast j.isLt⟩
  have hfin : ∀ hlt : ((j : Int)).toNat < 20, (⟨((j : Int)).toNat, hlt⟩ : Fin 20) = j := by
    intro hlt
    apply Fin.ext
    simp
  refine ⟨?_, ?_, ?_⟩
  · intro hs
    unfold wrapperOp
    rw [dif_pos hj]
    simp only [hfin]
    cases h : t.slots j
    · rfl
    · exact absurd h hs
    · rfl
  · unfold terminateWrapper
    rw [dif_pos hj]
    unfold wrapperOp
    rw [dif_pos hj]
    simp only [hfin, Function.update_same]
    rfl
  · intro hni
    unfold wrapperOp
    rw [dif_neg hni]

/-- Witness for `c1_theorem` at the all-unopened table, slot 2 and the
out-of-range index 25. -/
theorem c1_witness :
    emptyTable.slots 2 ≠ .opened ∧
    wrapperOp emptyTable ((2 : Fin 20) : Int) = .sentinel ∧
    wrapperOp (terminateWrapper emptyTable ((2 : Fin 20) : Int)).1 ((2 : Fin 20) : Int) =
      .sentinel ∧
    ¬(0 ≤ (25 : Int) ∧ (25 : Int) < 20) ∧
    wrapperOp emptyTable 25 = .invalidDeref 25 :=
  ⟨by decide,
   (c1_theorem emptyTable 2 25).1 (by decide),
   (c1_theorem emptyTable 2 25).2.1,
   by decide,
   (c1_theorem emptyTable 2 25).2.2 (by decide)⟩

/-- C2, as stated, is false: the SET path for a float32 column applies
only the narrowing cast to float — the 6-significant-digit textual
round-trip appears on the GET path only. -/
theorem c2_counterexample :
    MarshalStep.textRoundTrip6 ∉ setColumn_float32_steps ∧
    MarshalStep.textRoundTrip6 ∈ getColumn_float32_steps := by
  decide

/-- C2 (amended): for float32 fields, each GET operation (column, array,
parameter) routes the value through the 6-significant-digit textual
round-trip, while no SET operation does — SetColumn and SetArray apply
only the narrowing cast to float, and SetParameter forwards the double
unchanged. -/
theorem c2_theorem :
    getColumn_float32_steps = [.textRoundTrip6] ∧
    getArray_float32_steps = [.textRoundTrip6] ∧
    getParameter_float32_steps = [.textRoundTrip6] ∧
    setColumn_float32_steps = [.castToFloat32] ∧
    setArray_float32_steps = [.castToFloat32] ∧
    setParameter_float32_steps = [] ∧
    MarshalStep.textRoundTrip6 ∉ setColumn_float32_steps ∧
    MarshalStep.textRoundTrip6 ∉ setArray_float32_steps ∧
    MarshalStep.textRoundTrip6 ∉ setParameter_float32_steps := by
  decide

/-- C3, as stated, is false: a fixed value that is neither text nor an
integral or floating number does not produce a type-mismatch error — it
falls through to the no-fixed-value definition call
`SDDS_DefineParameter1(..., NULL)`. -/
theorem c3_counterexample :
    defineParameterRoute .pyNonNum = .noFixedValue ∧
    DefineRoute.noFixedValue ≠ .typeMismatchError := by
  decide

/-- C3 (amended): a text fixed value is used verbatim (empty meaning
absent, still through the `SDDS_DefineParameter` path, which is distinct
from the no-fixed-value path); an integral number is rendered through
the canonical int32-width formatter; a floating-point number through the
canonical float64-width formatter; any other value is routed through the
no-fixed-value call `SDDS_DefineParameter1(..., NULL)` rather than
failing with a type-mismatch error. -/
theorem c3_theorem (s : String) (n : Int) :
    defineParameterRoute (.pyStr s) =
      .withFixedString (if s.length = 0 then none else some s) ∧
    defineParameterRoute (.pyLongNum n) = .withFormattedInt32 ∧
    defineParameterRoute .pyFloatNum = .withFormattedFloat64 ∧
    defineParameterRoute .pyOtherNum = .noFixedValue ∧
    defineParameterRoute .pyNonNum = .noFixedValue ∧
    DefineRoute.withFixedString none ≠ .noFixedValue :=
  ⟨rfl, rfl, rfl, rfl, rfl, by decide⟩

/-- Witness for `c3_theorem` at the empty string and the integer 7. -/
theorem c3_witness :
    defineParameterRoute (.pyStr "") = .withFixedString none ∧
    defineParameterRoute (.pyLongNum 7) = .withFormattedInt32 :=
  ⟨( c3_theorem "" 7).1, ( c3_theorem "" 7).2.1⟩

/-- C4: set-row-values walks its ordered (column-name, value) pairs in
order; if every pair passes column lookup, type lookup and engine
conversion, the call returns the success value 1 with all cells applied;
if some pair fails partway, the call returns the error sentinel 0 while
the cells of the successful prefix have already been applied. -/
theorem c4_theorem {V : Type} (env : RowEnv V) (applied : List (Int × V))
    (pairs : List (String × V)) :
    (pairs.all (pairOk env) = true →
      setRowValuesRun env applied pairs = (applied ++ pairs.map (resolvePair env), 1)) ∧
    (pairs.all (pairOk env) = false →
      (setRowValuesRun env applied pairs).2 = 0 ∧
      (setRowValuesRun env applied pairs).1 =
        applied ++ (pairs.takeWhile (pairOk env)).map (resolvePair env)) := by
  induction pairs generalizing applied with
  | nil =>
    refine ⟨fun _ => by simp [setRowValuesRun], fun h => by simp at h⟩
  | cons p rest ih =>
    by_cases hc : env.colType (env.colIndex p.1) = 0
    · have hp : pairOk env p = false := by
        simp [pairOk, hc]
      refine ⟨fun h => ?_, fun _ => ?_⟩
      · simp [List.all_cons, hp] at h
      · constructor
        · simp [setRowValuesRun, hc]
        · simp [setRowValuesRun, hc, List.takeWhile_cons, hp]
    · by_cases hs : env.setOk (env.colIndex p.1) p.2 = true
      · have hp : pairOk env p = true := by
          simp [pairOk, hc, hs]
        have hrun : setRowValuesRun env applied (p :: rest) =
            setRowValuesRun env (applied ++ [resolvePair env p]) rest := by
          simp [setRowValuesRun, hc, hs]
        refine ⟨fun h => ?_, fun h => ?_⟩
        · have hall : rest.all (pairOk env) = true := by
            rw [List.all_cons, hp, Bool.true_and] at h
            exact h
          rw [hrun, (ih (applied ++ [resolvePair env p])).1 hall]
          simp
        · have hall : rest.all (pairOk env) = false := by
            rw [List.all_cons, hp, Bool.true_and] at h
            exact h
          have hres := (ih (applied ++ [resolvePair env p])).2 hall
          refine ⟨by rw [hrun]; exact hres.1, ?_⟩
          rw [hrun, hres.2]
          simp [List.takeWhile_cons, hp]
      · have hp : pairOk env p = false := by
          simp [pairOk, hs]
        refine ⟨fun h => ?_, fun _ => ?_⟩
        · simp [List.all_cons, hp] at h
        · constructor
          · simp [setRowValuesRun, hc, hs]
          · simp [setRowValuesRun, hc, hs, List.takeWhile_cons, hp]

/-- Concrete environment for the `c4_theorem` witness: one column
named x with index 0 and a valid type; every other name misses
(index -1, type 0); the engine accepts every value except 99. -/
def c4Env : RowEnv Int :=
  { colIndex := fun s => if s = "x" then 0 else -1
    colType := fun i => if i = 0 then 3 else 0
    setOk := fun _ v => decide (v ≠ 99) }

/-- Witness for `c4_theorem`: a list whose second pair names a missing
column fails with sentinel 0 after the first cell was applied; a list of
two good pairs succeeds with result 1. -/
theorem c4_witness :
    (([("x", 5), ("x", 6)] : List (String × Int)).all (pairOk c4Env) = true ∧
      setRowValuesRun c4Env [] [("x", 5), ("x", 6)] =
        ([] ++ ([("x", 5), ("x", 6)] : List (String × Int)).map (resolvePair c4Env), 1)) ∧
    (([("x", 5), ("y", 7)] : List (String × Int)).all (pairOk c4Env) = false ∧
      (setRowValuesRun c4Env [] [("x", 5), ("y", 7)]).2 = 0 ∧
      (setRowValuesRun c4Env [] [("x", 5), ("y", 7)]).1 =
        [] ++ (([("x", 5), ("y", 7)] : List (String × Int)).takeWhile (pairOk c4Env)).map
          (resolvePair c4Env)) :=
  ⟨⟨by decide, (c4_theorem c4Env [] [("x", 5), ("x", 6)]).1 (by decide)⟩,
   ⟨by decide, (c4_theorem c4Env [] [("x", 5), ("y", 7)]).2 (by decide)⟩⟩

/-- C5: read-page returns the 1-based page number on success, the
not-found sentinel -1 on clean end-of-file, and the error sentinel 0
otherwise, and the three outcomes are pairwise distinguishable from the
returned value. -/
theorem c5_theorem (o1 o2 : PageReadOutcome) (h1 : validOutcome o1) (h2 : validOutcome o2) :
    (readPageReturn o1 = readPageReturn o2 → o1 = o2) ∧
    (∀ p : Int, readPageReturn (.success p) = p) ∧
    readPageReturn .endOfFile = -1 ∧
    readPageReturn .error = 0 := by
  refine ⟨?_, fun p => rfl, rfl, rfl⟩
  intro h
  cases o1 <;> cases o2 <;>
    simp only [readPageReturn, validOutcome] at h h1 h2 <;>
    first
      | rfl
      | (exfalso; omega)
      | (rw [h])

/-- Witness for `c5_theorem` at page 3 and end-of-file. -/
theorem c5_witness :
    validOutcome (.success 3) ∧ validOutcome .endOfFile ∧
    ((readPageReturn (.success 3) = readPageReturn .endOfFile →
        (PageReadOutcome.success 3) = .endOfFile) ∧
      (∀ p : Int, readPageReturn (.success p) = p) ∧
      readPageReturn .endOfFile = -1 ∧
      readPageReturn .error = 0) :=
  ⟨by show (1 : Int) ≤ 3; norm_num, trivial,
   c5_theorem (.success 3) .endOfFile (by show (1 : Int) ≤ 3; norm_num) trivial⟩

/-- C6: in every define operation (parameter, column, array) and in
open-output, each optional textual attribute (symbol, units,
description, format string, group name, description/contents) supplied
as an empty string is normalized to absent before being passed on, and
a zero-length string is never stored. -/
theorem c6_theorem (sy un de fo gr ds ct : String) :
    defineParameterAttrs sy un de fo =
      ⟨normalizeAttr sy, normalizeAttr un, normalizeAttr de, normalizeAttr fo⟩ ∧
    defineColumnAttrs sy un de fo =
      ⟨normalizeAttr sy, normalizeAttr un, normalizeAttr de, normalizeAttr fo⟩ ∧
    defineArrayAttrs sy un de fo gr =
      ⟨normalizeAttr sy, normalizeAttr un, normalizeAttr de, normalizeAttr fo,
        normalizeAttr gr⟩ ∧
    outputAttrs ds ct = ⟨normalizeAttr ds, normalizeAttr ct⟩ ∧
    normalizeAttr "" = none ∧
    (∀ s t : String, normalizeAttr s = some t → t ≠ "") := by
  refine ⟨rfl, rfl, rfl, rfl, rfl, ?_⟩
  intro s t h
  unfold normalizeAttr at h
  by_cases hs : s.length = 0
  · rw [if_pos hs] at h
    exact absurd h (by simp)
  · rw [if_neg hs] at h
    rw [Option.some_inj] at h
    intro ht
    apply hs
    rw [h, ht]
    rfl

/-- Witness for `c6_theorem`: the empty symbol is normalized to absent,
and a concrete nonempty stored attribute is not zero-length. -/
theorem c6_witness :
    defineParameterAttrs "" "m" "" "" =
      ⟨normalizeAttr "", normalizeAttr "m", normalizeAttr "", normalizeAttr ""⟩ ∧
    normalizeAttr "" = none ∧
    ("m" : String) ≠ "" :=
  ⟨( c6_theorem "" "m" "" "" "" "" "").1,
   ( c6_theorem "" "m" "" "" "" "" "").2.2.2.2.1,
   ( c6_theorem "" "m" "" "" "" "" "").2.2.2.2.2 "m" "m" rfl⟩

/-- C7: the append-to-existing-page open operation returns the page's
existing row count as its successful result, and returns the distinct
failure sentinel (the NULL return) whenever the underlying
initialization result is not 1. -/
theorem c7_theorem (result rows : Int) :
    (result = 1 → initAppendToPageResult result rows = .ok rows) ∧
    (result ≠ 1 → initAppendToPageResult result rows = .error ()) ∧
    (∀ n : Int, (Except.ok n : Except Unit Int) ≠ .error ()) := by
  refine ⟨?_, ?_, fun n => by simp⟩
  · intro h
    simp [initAppendToPageResult, h]
  · intro h
    simp [initAppendToPageResult, h]

/-- Witness for `c7_theorem`: engine result 1 yields the row count 42,
engine result 0 yields the failure sentinel, and the two are distinct. -/
theorem c7_witness :
    initAppendToPageResult 1 42 = .ok 42 ∧
    initAppendToPageResult 0 42 = .error () ∧
    (Except.ok 42 : Except Unit Int) ≠ .error () :=
  ⟨(c7_theorem 1 42).1 rfl,
   (c7_theorem 0 42).2.1 (by decide),
   (c7_theorem 1 42).2.2 42⟩

/-- C8: set-array returns the error sentinel 0 and leaves the dataset
untouched whenever the length of the supplied dimension list differs
from the array's declared dimensionality. -/
theorem c8_theorem {DS : Type} (engineWrite : DS → DS × Int)
    (declaredDims : Int) (dimList : List Int) (ds : DS)
    (h : declaredDims ≠ (dimList.length : Int)) :
    setArrayAfterLookup engineWrite declaredDims dimList ds = (ds, 0) := by
  unfold setArrayAfterLookup
  rw [if_pos h]

/-- Witness for `c8_theorem`: a 2-dimensional array given a 1-element
dimension list is rejected with sentinel 0 and the dataset unchanged. -/
theorem c8_witness :
    setArrayAfterLookup (fun n : Nat => (n + 1, 1)) 2 [3] 0 = (0, 0) :=
  c8_theorem (fun n : Nat => (n + 1, 1)) 2 [3] 0 (by decide)

/-- C9: setting a char-typed parameter, column element, or array element
stores exactly the first byte of the provided text; longer input is
truncated silently — the stored byte ignores the tail and the call does
not reject it. -/
theorem c9_theorem (b : Nat) (bytes : List Nat) (cell : List Nat)
    (cells : List (List Nat)) :
    setParameterCharStored (b :: bytes) = b ∧
    setParameterCharStored (b :: bytes) = setParameterCharStored [b] ∧
    setColumnCharStored (cell :: cells) = cFirstByte cell :: setColumnCharStored cells ∧
    setArrayCharStored (cell :: cells) = cFirstByte cell :: setArrayCharStored cells ∧
    cFirstByte (b :: bytes) = b :=
  ⟨rfl, rfl, rfl, rfl, rfl⟩

/-- C10: when a field is addressed by positional index, set-array
rejects an index at or above the number of defined arrays but performs
no lower-bound check — every index below the count, negative ones
included, is used to select a name — whereas get-column, get-array and
get-parameter select a name exactly for indices inside [0, count) and
reject all others. -/
theorem c10_theorem (index number : Int) :
    setArraySelect (-1) 2 = .selected (-1) ∧
    (number ≤ index → setArraySelect index number = .rejected) ∧
    (index < number → setArraySelect index number = .selected index) ∧
    (getColumnSelect index number = .selected index ↔ 0 ≤ index ∧ index < number) ∧
    (getArraySelect index number = .selected index ↔ 0 ≤ index ∧ index < number) ∧
    (getParameterSelect index number = .selected index ↔ 0 ≤ index ∧ index < number) ∧
    (¬(0 ≤ index ∧ index < number) → getColumnSelect index number = .rejected) ∧
    (¬(0 ≤ index ∧ index < number) → getArraySelect index number = .rejected) ∧
    (¬(0 ≤ index ∧ index < number) → getParameterSelect index number = .rejected) := by
  refine ⟨by decide, ?_, ?_, ?_, ?_, ?_, ?_, ?_, ?_⟩
  · intro h
    unfold setArraySelect
    rw [if_pos h]
  · intro h
    unfold setArraySelect
    rw [if_neg (not_le.mpr h)]
  · unfold getColumnSelect
    by_cases hc : 0 ≤ index ∧ index < number <;> simp [hc]
  · unfold getArraySelect
    by_cases hc : 0 ≤ index ∧ index < number <;> simp [hc]
  · unfold getParameterSelect
    by_cases hc : 0 ≤ index ∧ index < number <;> simp [hc]
  · intro h
    unfold getColumnSelect
    rw [if_neg h]
  · intro h
    unfold getArraySelect
    rw [if_neg h]
  · intro h
    unfold getParameterSelect
    rw [if_neg h]

/-- Witness for `c10_theorem`: set-array accepts the negative index -1
against 2 defined arrays and rejects index 5; get-parameter rejects the
negative index -1. -/
theorem c10_witness :
    setArraySelect (-1) 2 = .selected (-1) ∧
    setArraySelect 5 2 = .rejected ∧
    getParameterSelect (-1) 2 = .rejected :=
  ⟨(c10_theorem (-1) 2).1,
   (c10_theorem 5 2).2.1 (by decide),
   (c10_theorem (-1) 2).2.2.2.2.2.2.2.2 (by decide)⟩
